import Mathlib

/-!
Shallow embedding of the termineter data modules
(`lib/termineter/modules/get_data_mqtt.py` and
`lib/termineter/modules/get_data.py`): the buffer decoder
`parse_input_buffer`, the MQTT discovery-configuration generator
`get_or_create_config`, the publish helpers, and the `run` orchestration
of both modules, together with proofs of the specified properties.

Conventions of the embedding:
* a byte buffer is a `List Nat` of byte values;
* Python numbers (ints and the floats produced by `/`) are modelled as `ℚ`,
  which represents every value the decoder can produce exactly;
* a Python exception that escapes a function is an `Except.error` carrying a
  `PyErr` tag naming the exception class;
* a table source (`conn.get_table_part`) is a function from
  `(table_id, octet, offset)` to `Option (List Nat)`, where `none` stands for
  a raised `C1218ReadTableError` (the only exception the callers catch);
* broker publishes are recorded as a list of `Publish` records, mirroring
  `paho`’s `publish(topic, payload, qos, retain)` arguments.
-/

namespace Termineter

/-- Exception classes that can escape the embedded Python functions.
`unboundLocal` stands for `UnboundLocalError` (reading a local variable
that was never assigned), `indexError` for `IndexError` (tuple index out of
range), `structError` for `struct.error` (buffer size does not match the
format string).  None of these is a `ValueError`, so none is caught by the
`except ValueError` clause in `parse_input_buffer`. -/
inductive PyErr where
  | unboundLocal
  | indexError
  | structError
deriving DecidableEq, Repr

/-- `byte += b"\x00" * (36 - len(byte))` when `len(byte) < 36`: pad the
buffer on the right with zero bytes up to 36 bytes (source line 159-160). -/
def pad36 (b : List Nat) : List Nat :=
  if b.length < 36 then b ++ List.replicate (36 - b.length) 0 else b

/-- Reinterpret an unsigned 32-bit value as a signed one (two's complement),
as `struct.unpack` with format character `i` does. -/
def toInt32 (n : Nat) : Int :=
  if n % 2 ^ 32 < 2 ^ 31 then ((n % 2 ^ 32 : Nat) : Int)
  else ((n % 2 ^ 32 : Nat) : Int) - 2 ^ 32

/-- The little-endian signed 32-bit integers stored in a byte list, four
bytes per integer, trailing bytes (fewer than four) ignored: the sequence
`struct.unpack("<" + "i" * (len(byte) // 4), byte)` yields when the length
check passes. -/
def int32sOf : List Nat → List Int
  | b0 :: b1 :: b2 :: b3 :: rest =>
      toInt32 (b0 + 256 * b1 + 65536 * b2 + 16777216 * b3) :: int32sOf rest
  | _ => []

/-- Python tuple indexing `t[i]` for a nonnegative index: the element when
it exists, `IndexError` otherwise. -/
def pyIndex (l : List Int) (i : Nat) : Except PyErr Int :=
  match l.get? i with
  | some v => Except.ok v
  | none => Except.error PyErr.indexError

/-- `Module.parse_input_buffer(self, byte, table_id)` of
`get_data_mqtt.py`, lines 156-184.  The buffer is padded to at least 36
bytes and unpacked as `<iii...` with `len(byte) // 4` integers
(`struct.error` when the padded length is not a multiple of four); table 23
reads integers 0 and 1 (scale 1000), table 28 reads integers 0, 1 and 4-9
(indices 4-9 scaled by 1000); any other table id leaves the local `data`
unassigned, so the `print_status` f-string on line 180 raises
`UnboundLocalError`.  The `except ValueError: return {}` clause is
represented nowhere because no reachable failure is a `ValueError`: the
escaping exceptions are exactly the `Except.error` results. -/
def parse_input_buffer (byte : List Nat) (table_id : Int) :
    Except PyErr (List (String × ℚ)) :=
  if (pad36 byte).length % 4 ≠ 0 then Except.error PyErr.structError
  else if table_id = 23 then
    (pyIndex (int32sOf (pad36 byte)) 0).bind fun v0 =>
    (pyIndex (int32sOf (pad36 byte)) 1).bind fun v1 =>
    Except.ok [("Fwd_kWh", (v0 : ℚ) / 1000), ("Rev_kWh", (v1 : ℚ) / 1000)]
  else if table_id = 28 then
    (pyIndex (int32sOf (pad36 byte)) 0).bind fun v0 =>
    (pyIndex (int32sOf (pad36 byte)) 1).bind fun v1 =>
    (pyIndex (int32sOf (pad36 byte)) 4).bind fun v4 =>
    (pyIndex (int32sOf (pad36 byte)) 5).bind fun v5 =>
    (pyIndex (int32sOf (pad36 byte)) 6).bind fun v6 =>
    (pyIndex (int32sOf (pad36 byte)) 7).bind fun v7 =>
    (pyIndex (int32sOf (pad36 byte)) 8).bind fun v8 =>
    (pyIndex (int32sOf (pad36 byte)) 9).bind fun v9 =>
    Except.ok [("fwd_Now", (v0 : ℚ)), ("rev_Now", (v1 : ℚ)),
      ("L1_A", (v4 : ℚ) / 1000), ("L2_A", (v5 : ℚ) / 1000),
      ("L3_A", (v6 : ℚ) / 1000), ("L1_V", (v7 : ℚ) / 1000),
      ("L2_V", (v8 : ℚ) / 1000), ("L3_V", (v9 : ℚ) / 1000)]
  else Except.error PyErr.unboundLocal

/-! JSON values and serialization, modelling `json.dumps` with its default
separators and ASCII escaping, as used by `get_or_create_config`. -/

/-- A JSON value of the shapes `get_or_create_config` builds: strings,
arrays, and objects whose fields keep insertion order (Python dicts
preserve it, and `json.dumps` serializes in that order). -/
inductive Jv where
  | str (s : String)
  | arr (elems : List Jv)
  | obj (fields : List (String × Jv))

/-- The lowercase hexadecimal digit character for a value below 16:
code 48 is the digit zero, code 97 the letter a. -/
def hexDigit (n : Nat) : Char :=
  if n < 10 then Char.ofNat (48 + n) else Char.ofNat (97 + (n - 10))

/-- Four lowercase hex digits of a 16-bit value, as in a JSON escape. -/
def u16hex (n : Nat) : String :=
  String.mk [hexDigit (n / 4096 % 16), hexDigit (n / 256 % 16),
    hexDigit (n / 16 % 16), hexDigit (n % 16)]

/-- Escape one character the way `json.dumps` does with its default
`ensure_ascii=True`: backslash and double quote get a backslash escape, the
control characters with short forms use them, and every other character
outside the printable ASCII range `0x20`-`0x7e` becomes a hex escape
(with a surrogate pair above `0xffff`). -/
def jescapeChar (c : Char) : String :=
  if c = '"' then "\\\""
  else if c = '\\' then "\\\\"
  else if c = '\n' then "\\n"
  else if c = '\t' then "\\t"
  else if c = '\r' then "\\r"
  else if c.toNat = 8 then "\\b"
  else if c.toNat = 12 then "\\f"
  else if 32 ≤ c.toNat ∧ c.toNat ≤ 126 then String.singleton c
  else if c.toNat < 65536 then "\\u" ++ u16hex c.toNat
  else
    let v := c.toNat - 65536
    "\\u" ++ u16hex (55296 + v / 1024) ++ "\\u" ++ u16hex (56320 + v % 1024)

/-- Escape every character of a string for a JSON string literal. -/
def jescape (s : String) : String :=
  String.join (s.toList.map jescapeChar)

/-- A serialized JSON string literal. -/
def jstr (s : String) : String :=
  "\"" ++ jescape s ++ "\""

mutual

/-- Serialize a JSON value exactly as `json.dumps` does with default
arguments: item separator comma-space, key separator colon-space. -/
def jdumps : Jv → String
  | Jv.str s => jstr s
  | Jv.arr es => "[" ++ jdumpsElems es ++ "]"
  | Jv.obj fs => "\x7b" ++ jdumpsFields fs ++ "\x7d"

/-- Serialize the comma-separated elements of a JSON array. -/
def jdumpsElems : List Jv → String
  | [] => ""
  | [e] => jdumps e
  | e :: rest => jdumps e ++ ", " ++ jdumpsElems rest

/-- Serialize the comma-separated fields of a JSON object. -/
def jdumpsFields : List (String × Jv) → String
  | [] => ""
  | [kv] => jstr kv.1 ++ ": " ++ jdumps kv.2
  | kv :: rest => jstr kv.1 ++ ": " ++ jdumps kv.2 ++ ", " ++ jdumpsFields rest

end

namespace GetDataMqtt

/-- The module-level configuration constants imported from `mqtt_config`
that influence topic names and payloads: `mqtt_topic_root` models the
constant the source calls the MQTT topic root for data topics
(line 15 of the import list), together with `meter_name` and `meter_id`. -/
structure MqttConfig where
  mqtt_topic_root : String
  meter_name : String
  meter_id : String

/-- `self.sensor_types` from `Module.__init__` (lines 27-38). -/
def sensor_types : List String :=
  ["Fwd_kWh", "Rev_kWh", "fwd_Now", "rev_Now",
   "L1_A", "L1_V", "L2_A", "L2_V", "L3_A", "L3_V"]

/-- The `config_details` dictionary of `get_or_create_config`
(lines 68-115), in source order: key to
`(icon, name, unit, state_class, device_class)`, with `none` for the
Python `None` device class of the three amperage sensors. -/
def config_details :
    List (String × (String × String × String × String × Option String)) :=
  [("Fwd_kWh", ("mdi:transmission-tower-import", "Energy Import", "kWh",
      "total_increasing", some "energy")),
   ("Rev_kWh", ("mdi:transmission-tower-export", "Energy Export", "kWh",
      "total_increasing", some "energy")),
   ("fwd_Now", ("mdi:meter-electric-outline", "Power Import", "W",
      "measurement", some "power")),
   ("rev_Now", ("mdi:meter-electric", "Power Export", "W",
      "measurement", some "power")),
   ("L1_A", ("mdi:alpha-a-circle", "Phase 1 Amperage", "A",
      "measurement", none)),
   ("L1_V", ("mdi:alpha-v-circle", "Phase 1 Voltage", "V",
      "measurement", some "voltage")),
   ("L2_A", ("mdi:alpha-a-circle", "Phase 2 Amperage", "A",
      "measurement", none)),
   ("L2_V", ("mdi:alpha-v-circle", "Phase 2 Voltage", "V",
      "measurement", some "voltage")),
   ("L3_A", ("mdi:alpha-a-circle", "Phase 3 Amperage", "A",
      "measurement", none)),
   ("L3_V", ("mdi:alpha-v-circle", "Phase 3 Voltage", "V",
      "measurement", some "voltage"))]

/-- The `data` dictionary built by `get_or_create_config` (lines 116-134)
for a known key, `none` for an unknown key: the discovery payload before
serialization.  `device_class` is appended only when the looked-up device
class is truthy (a nonempty string). -/
def config_data (cfg : MqttConfig) (key : String) :
    Option (List (String × Jv)) :=
  match List.lookup key config_details with
  | none => none
  | some (icon, name, unit, state_class, device_class) =>
    let base := [
      ("device", Jv.obj [("identifiers", Jv.arr [Jv.str cfg.meter_id]),
        ("manufacturer", Jv.str "Networked Electricity Services"),
        ("model", Jv.str "NES-Meter"),
        ("name", Jv.str "Electricity Meter")]),
      ("name", Jv.str name),
      ("unit_of_measurement", Jv.str unit),
      ("state_topic", Jv.str (cfg.mqtt_topic_root ++ "/" ++ cfg.meter_name
        ++ "/" ++ key)),
      ("unique_id", Jv.str (cfg.meter_id ++ "_" ++ key)),
      ("state_class", Jv.str state_class),
      ("icon", Jv.str icon),
      ("platform", Jv.str "mqtt")]
    some (match device_class with
      | some dc => if dc = "" then base else base ++ [("device_class", Jv.str dc)]
      | none => base)

/-- `Module.get_or_create_config(self, key)` (lines 66-138): the
serialized discovery payload `json.dumps(data)` for a known key, `None`
(here `none`) for an unknown key. -/
def get_or_create_config (cfg : MqttConfig) (key : String) : Option String :=
  (config_data cfg key).map (fun fs => jdumps (Jv.obj fs))

/-- A payload handed to `client.publish`: either a string (the serialized
discovery configuration) or a number (a decoded metric value). -/
inductive Pay where
  | str (s : String)
  | num (q : ℚ)
deriving DecidableEq, Repr

/-- One call to `Module.publish(self, topic, payload, qos=0, retain=False)`
(lines 63-64), recording the arguments passed to `client.publish`. -/
structure Publish where
  topic : String
  payload : Pay
  qos : Nat
  retain : Bool
deriving DecidableEq, Repr

/-- `Module.publish_initial_configurations(self, sensor_types)`
(lines 140-147): for each sensor type with a config payload, publish it
retained (and with the default `qos=0`) to
`homeassistant/sensor/<meter_name>_<sensor_type>/config`; a key without a
payload is skipped. -/
def publish_initial_configurations (cfg : MqttConfig) (types : List String) :
    List Publish :=
  types.filterMap fun sensor_type =>
    (get_or_create_config cfg sensor_type).map fun config_payload =>
      { topic := "homeassistant/sensor/" ++ cfg.meter_name ++ "_"
          ++ sensor_type ++ "/config",
        payload := Pay.str config_payload, qos := 0, retain := true }

/-- `Module.publish_data(self, buffer_dict)` (lines 149-154): publish each
value unretained with `qos=0` to `<topic root>/<meter_name>/<key>`, in
dictionary (insertion) order. -/
def publish_data (cfg : MqttConfig) (buffer_dict : List (String × ℚ)) :
    List Publish :=
  buffer_dict.map fun kv =>
    { topic := cfg.mqtt_topic_root ++ "/" ++ cfg.meter_name ++ "/" ++ kv.1,
      payload := Pay.num kv.2, qos := 0, retain := false }

/-- A table source: `conn.get_table_part(table_id, octet, offset)`
returning bytes, with `none` standing for a raised `C1218ReadTableError`
(the only exception the calling code catches). -/
def Conn : Type := Int → Nat → Nat → Option (List Nat)

/-- `Module.read_and_process_data(self, conn, table_id, octet)`
(lines 186-197): read the table part (a `C1218ReadTableError` is caught
and logged, yielding no publishes), parse the buffer (an exception
escaping `parse_input_buffer` propagates out, recorded as `some` error),
and publish the parsed data when the dictionary is nonempty.  Returns the
publishes made and the escaping exception, if any. -/
def read_and_process_data (cfg : MqttConfig) (conn : Conn) (table_id : Int)
    (octet : Nat) : List Publish × Option PyErr :=
  match conn table_id octet 0 with
  | none => ([], none)
  | some data =>
    match parse_input_buffer data table_id with
    | Except.error e => ([], some e)
    | Except.ok parsed =>
        (if parsed = [] then [] else publish_data cfg parsed, none)

/-- `Module.run(self)` (lines 199-202): one poll cycle, table 23 with 8
octets then table 28 with 40 octets; an exception escaping the first call
aborts the cycle before the second. -/
def run (cfg : MqttConfig) (conn : Conn) : List Publish × Option PyErr :=
  match read_and_process_data cfg conn 23 8 with
  | (p1, some e) => (p1, some e)
  | (p1, none) =>
    let r2 := read_and_process_data cfg conn 28 40
    (p1 ++ r2.1, r2.2)

end GetDataMqtt

namespace GetData

/-- The observable outcome of one `Module.run` of `get_data.py`: the files
written under `/var/tmp` with the bytes whose hex encoding they receive,
whether the table 28 read was attempted, and the exception escaping `run`,
if any. -/
structure RunState where
  writes : List (String × List Nat)
  attempted28 : Bool
  uncaught : Option PyErr
deriving DecidableEq, Repr

/-- `Module.run(self)` of `get_data.py` (lines 49-85).  The table 23 read
is wrapped in `try/except C1218ReadTableError` which only logs; when the
read failed, the local variable `data` was never assigned, so the
`len(data)` on line 61 raises `UnboundLocalError` and `run` aborts before
the table 28 read.  When the table 28 read fails, `data` still holds the
table 23 bytes, and lines 79-85 log and write those bytes to
`/var/tmp/BT28`. -/
def run (conn : GetDataMqtt.Conn) : RunState :=
  match conn 23 8 0 with
  | none =>
    { writes := [], attempted28 := false, uncaught := some PyErr.unboundLocal }
  | some d23 =>
    match conn 28 40 0 with
    | none =>
      { writes := [("/var/tmp/BT23", d23), ("/var/tmp/BT28", d23)],
        attempted28 := true, uncaught := none }
    | some d28 =>
      { writes := [("/var/tmp/BT23", d23), ("/var/tmp/BT28", d28)],
        attempted28 := true, uncaught := none }

end GetData

/-! Helper lemmas about the decoder. -/

lemma pad36_length (b : List Nat) : (pad36 b).length = max 36 b.length := by
  unfold pad36
  split <;> simp <;> omega

lemma int32sOf_length (l : List Nat) : (int32sOf l).length = l.length / 4 := by
  induction l using int32sOf.induct with
  | case1 b0 b1 b2 b3 rest ih => simp [int32sOf, ih]; omega
  | case2 l h =>
    cases l with
    | nil => simp [int32sOf]
    | cons a t => cases t with
      | nil => simp [int32sOf]
      | cons a2 t2 => cases t2 with
        | nil => simp [int32sOf]
        | cons a3 t3 => cases t3 with
          | nil => simp [int32sOf]
          | cons a4 t4 => exact absurd rfl (h a a2 a3 a4 t4)

lemma pyIndex_ok (l : List Int) (i : Nat) (h : i < l.length) :
    pyIndex l i = Except.ok (l.getD i 0) := by
  unfold pyIndex
  rcases hg : l.get? i with _ | v
  · exact absurd (List.get?_eq_none.mp hg) (by omega)
  · simp [List.getD_eq_getElem?_getD, ← List.get?_eq_getElem?, hg]

lemma pyIndex_err (l : List Int) (i : Nat) (h : l.length ≤ i) :
    pyIndex l i = Except.error PyErr.indexError := by
  unfold pyIndex
  rw [List.get?_eq_none.mpr h]

lemma parse23_ok (b : List Nat) (h : b.length < 36 ∨ b.length % 4 = 0) :
    parse_input_buffer b 23 =
      Except.ok [("Fwd_kWh", ((int32sOf (pad36 b)).getD 0 0 : ℚ) / 1000),
        ("Rev_kWh", ((int32sOf (pad36 b)).getD 1 0 : ℚ) / 1000)] := by
  have hlen : (pad36 b).length = max 36 b.length := pad36_length b
  have hi : (int32sOf (pad36 b)).length = (pad36 b).length / 4 := int32sOf_length _
  unfold parse_input_buffer
  rw [if_neg (by omega), if_pos rfl]
  rw [pyIndex_ok _ 0 (by omega), pyIndex_ok _ 1 (by omega)]
  rfl

lemma parse28_ok (b : List Nat) (h4 : b.length % 4 = 0) (h40 : 40 ≤ b.length) :
    parse_input_buffer b 28 =
      Except.ok [("fwd_Now", ((int32sOf (pad36 b)).getD 0 0 : ℚ)),
        ("rev_Now", ((int32sOf (pad36 b)).getD 1 0 : ℚ)),
        ("L1_A", ((int32sOf (pad36 b)).getD 4 0 : ℚ) / 1000),
        ("L2_A", ((int32sOf (pad36 b)).getD 5 0 : ℚ) / 1000),
        ("L3_A", ((int32sOf (pad36 b)).getD 6 0 : ℚ) / 1000),
        ("L1_V", ((int32sOf (pad36 b)).getD 7 0 : ℚ) / 1000),
        ("L2_V", ((int32sOf (pad36 b)).getD 8 0 : ℚ) / 1000),
        ("L3_V", ((int32sOf (pad36 b)).getD 9 0 : ℚ) / 1000)] := by
  have hlen : (pad36 b).length = max 36 b.length := pad36_length b
  have hi : (int32sOf (pad36 b)).length = (pad36 b).length / 4 := int32sOf_length _
  unfold parse_input_buffer
  rw [if_neg (by omega), if_neg (by norm_num), if_pos rfl]
  rw [pyIndex_ok _ 0 (by omega), pyIndex_ok _ 1 (by omega), pyIndex_ok _ 4 (by omega),
    pyIndex_ok _ 5 (by omega), pyIndex_ok _ 6 (by omega), pyIndex_ok _ 7 (by omega),
    pyIndex_ok _ 8 (by omega), pyIndex_ok _ 9 (by omega)]
  rfl

lemma parse28_short (b : List Nat) (h : b.length < 36 ∨ b.length % 4 = 0)
    (h40 : b.length < 40) :
    parse_input_buffer b 28 = Except.error PyErr.indexError := by
  have hlen : (pad36 b).length = max 36 b.length := pad36_length b
  have hi : (int32sOf (pad36 b)).length = (pad36 b).length / 4 := int32sOf_length _
  unfold parse_input_buffer
  rw [if_neg (by omega), if_neg (by norm_num), if_pos rfl]
  rw [pyIndex_ok _ 0 (by omega), pyIndex_ok _ 1 (by omega), pyIndex_ok _ 4 (by omega),
    pyIndex_ok _ 5 (by omega), pyIndex_ok _ 6 (by omega), pyIndex_ok _ 7 (by omega),
    pyIndex_ok _ 8 (by omega), pyIndex_err _ 9 (by omega)]
  rfl

lemma except_bind_ok {ε α β : Type} {step : Except ε α} {rest : α → Except ε β}
    {out : β} (hchain : step.bind rest = Except.ok out) :
    ∃ mid, step = Except.ok mid ∧ rest mid = Except.ok out := by
  cases step with
  | error msg => exact absurd hchain (by simp [Except.bind])
  | ok mid => exact ⟨mid, rfl, hchain⟩

lemma parse_unknown_table (t : Int) (b : List Nat) (h23 : t ≠ 23) (h28 : t ≠ 28) :
    ∃ e, parse_input_buffer b t = Except.error e := by
  by_cases h4 : (pad36 b).length % 4 ≠ 0
  · exact ⟨PyErr.structError, by unfold parse_input_buffer; rw [if_pos h4]⟩
  · exact ⟨PyErr.unboundLocal, by
      unfold parse_input_buffer; rw [if_neg h4, if_neg h23, if_neg h28]⟩

lemma parse23_keys (b : List Nat) (m : List (String × ℚ))
    (h : parse_input_buffer b 23 = Except.ok m) :
    m.map Prod.fst = ["Fwd_kWh", "Rev_kWh"] := by
  by_cases h4 : (pad36 b).length % 4 ≠ 0
  · unfold parse_input_buffer at h
    rw [if_pos h4] at h
    exact absurd h (by simp)
  · unfold parse_input_buffer at h
    rw [if_neg h4, if_pos rfl] at h
    obtain ⟨v0, h0, h⟩ := except_bind_ok h
    obtain ⟨v1, h1, h⟩ := except_bind_ok h
    cases h
    rfl

lemma parse28_keys (b : List Nat) (m : List (String × ℚ))
    (h : parse_input_buffer b 28 = Except.ok m) :
    m.map Prod.fst
      = ["fwd_Now", "rev_Now", "L1_A", "L2_A", "L3_A", "L1_V", "L2_V", "L3_V"] := by
  by_cases h4 : (pad36 b).length % 4 ≠ 0
  · unfold parse_input_buffer at h
    rw [if_pos h4] at h
    exact absurd h (by simp)
  · unfold parse_input_buffer at h
    rw [if_neg h4, if_neg (by norm_num), if_pos rfl] at h
    obtain ⟨v0, h0, h⟩ := except_bind_ok h
    obtain ⟨v1, h1, h⟩ := except_bind_ok h
    obtain ⟨v4, hx4, h⟩ := except_bind_ok h
    obtain ⟨v5, h5, h⟩ := except_bind_ok h
    obtain ⟨v6, h6, h⟩ := except_bind_ok h
    obtain ⟨v7, h7, h⟩ := except_bind_ok h
    obtain ⟨v8, h8, h⟩ := except_bind_ok h
    obtain ⟨v9, h9, h⟩ := except_bind_ok h
    cases h
    rfl

/-! The claims. -/

/-- C1, counterexample: for the supported table id 28 and the empty
buffer, decoding does not return a mapping: it raises an uncaught
`IndexError`, because the dictionary for table 28 reads the integer at
index 9 while the 36-byte zero padding provides only nine integers
(indices 0-8). -/
theorem c1_counterexample :
    parse_input_buffer [] 28 = Except.error PyErr.indexError := by rfl

/-- C1 (amended): for every buffer whose length is under 36 or a multiple
of four, decoding table 23 never fails and reads only integer indices 0
and 1, with zero-valued entries when the buffer was entirely supplied by
zero padding; decoding table 28 reads up to integer index 9, so it
succeeds exactly for buffers of at least 40 bytes and raises an uncaught
`IndexError` for shorter ones. -/
theorem c1_decode_amended (b : List Nat)
    (h : b.length < 36 ∨ b.length % 4 = 0) :
    parse_input_buffer b 23 =
      Except.ok [("Fwd_kWh", ((int32sOf (pad36 b)).getD 0 0 : ℚ) / 1000),
        ("Rev_kWh", ((int32sOf (pad36 b)).getD 1 0 : ℚ) / 1000)]
    ∧ (40 ≤ b.length → ∃ m, parse_input_buffer b 28 = Except.ok m)
    ∧ (b.length < 40 → parse_input_buffer b 28 = Except.error PyErr.indexError)
    ∧ (b = [] → parse_input_buffer b 23 =
        Except.ok [("Fwd_kWh", 0), ("Rev_kWh", 0)]) := by
  refine ⟨parse23_ok b h, fun h40 => ⟨_, parse28_ok b ?_ h40⟩, parse28_short b h, ?_⟩
  · omega
  · rintro rfl
    have h0 : (int32sOf (pad36 ([] : List Nat))).getD 0 0 = 0 := by decide
    have h1 : (int32sOf (pad36 ([] : List Nat))).getD 1 0 = 0 := by decide
    rw [parse23_ok [] (by norm_num), h0, h1]
    norm_num

/-- C1, witness: the amended theorem applied to the empty buffer. -/
theorem c1_witness :
    parse_input_buffer [] 23 = Except.ok [("Fwd_kWh", 0), ("Rev_kWh", 0)] :=
  (c1_decode_amended [] (by norm_num)).2.2.2 rfl

/-- C2, counterexample: for the unknown table id 0 and the empty buffer,
decoding does not return an empty mapping: the local variable `data` is
never assigned in `parse_input_buffer`, so the status line raises an
uncaught `UnboundLocalError` (which the `except ValueError` clause does
not catch). -/
theorem c2_counterexample :
    parse_input_buffer [] 0 = Except.error PyErr.unboundLocal := by rfl

/-- C2 (amended): for every table id other than 23 and 28, decoding always
raises (a `struct.error` for an unpaddable length, an `UnboundLocalError`
otherwise) instead of returning a mapping, and the orchestrating read step
still makes no publish call for that table. -/
theorem c2_unknown_table_amended (t : Int) (b : List Nat)
    (cfg : GetDataMqtt.MqttConfig) (conn : GetDataMqtt.Conn) (octet : Nat)
    (h23 : t ≠ 23) (h28 : t ≠ 28) :
    (∃ e, parse_input_buffer b t = Except.error e)
    ∧ (GetDataMqtt.read_and_process_data cfg conn t octet).1 = [] := by
  refine ⟨parse_unknown_table t b h23 h28, ?_⟩
  cases hc : conn t octet 0 with
  | none => simp [GetDataMqtt.read_and_process_data, hc]
  | some data =>
    obtain ⟨e, he⟩ := parse_unknown_table t data h23 h28
    simp [GetDataMqtt.read_and_process_data, hc, he]

/-- C2, witness: the amended theorem applied to table id 0 with the empty
buffer and a table source whose reads fail. -/
theorem c2_witness :
    (∃ e, parse_input_buffer [] 0 = Except.error e)
    ∧ (GetDataMqtt.read_and_process_data ⟨"t", "m", "id"⟩
        (fun _ _ _ => none) 0 0).1 = [] :=
  c2_unknown_table_amended 0 [] ⟨"t", "m", "id"⟩ (fun _ _ _ => none) 0
    (by norm_num) (by norm_num)

/-- C3: when the table source raises `C1218ReadTableError` for table 23
but yields a 40-byte buffer for table 28, `run` does not propagate the
exception: it decodes table 28 successfully and publishes its data within
the same invocation. -/
theorem c3_failure_isolation (cfg : GetDataMqtt.MqttConfig)
    (conn : GetDataMqtt.Conn) (b28 : List Nat)
    (h23 : conn 23 8 0 = none) (h28 : conn 28 40 0 = some b28)
    (hlen : b28.length = 40) :
    ∃ m, parse_input_buffer b28 28 = Except.ok m ∧ m ≠ []
      ∧ GetDataMqtt.run cfg conn = (GetDataMqtt.publish_data cfg m, none) := by
  have hp := parse28_ok b28 (by omega) (by omega)
  refine ⟨_, hp, by simp, ?_⟩
  have h1 : GetDataMqtt.read_and_process_data cfg conn 23 8 = ([], none) := by
    simp [GetDataMqtt.read_and_process_data, h23]
  have h2 : GetDataMqtt.read_and_process_data cfg conn 28 40
      = (GetDataMqtt.publish_data cfg
          [("fwd_Now", ((int32sOf (pad36 b28)).getD 0 0 : ℚ)),
           ("rev_Now", ((int32sOf (pad36 b28)).getD 1 0 : ℚ)),
           ("L1_A", ((int32sOf (pad36 b28)).getD 4 0 : ℚ) / 1000),
           ("L2_A", ((int32sOf (pad36 b28)).getD 5 0 : ℚ) / 1000),
           ("L3_A", ((int32sOf (pad36 b28)).getD 6 0 : ℚ) / 1000),
           ("L1_V", ((int32sOf (pad36 b28)).getD 7 0 : ℚ) / 1000),
           ("L2_V", ((int32sOf (pad36 b28)).getD 8 0 : ℚ) / 1000),
           ("L3_V", ((int32sOf (pad36 b28)).getD 9 0 : ℚ) / 1000)], none) := by
    simp [GetDataMqtt.read_and_process_data, h28, hp]
  simp [GetDataMqtt.run, h1, h2]

/-- C3, witness: the theorem applied to a table source that fails on table
23 and returns forty zero bytes for table 28. -/
theorem c3_witness :
    ∃ m, parse_input_buffer (List.replicate 40 0) 28 = Except.ok m ∧ m ≠ []
      ∧ GetDataMqtt.run ⟨"t", "m", "id"⟩
          (fun t _ _ => if t = 23 then none else some (List.replicate 40 0))
        = (GetDataMqtt.publish_data ⟨"t", "m", "id"⟩ m, none) :=
  c3_failure_isolation ⟨"t", "m", "id"⟩
    (fun t _ _ => if t = 23 then none else some (List.replicate 40 0))
    (List.replicate 40 0) (by norm_num) (by norm_num) (by simp)

/-- C4: the 8-byte buffer encoding the little-endian signed integers 1000
and 2000 decodes, for table 23, to exactly the mapping
`Fwd_kWh = 1, Rev_kWh = 2` (each integer divided by 1000). -/
theorem c4_table23_example : parse_input_buffer [232, 3, 0, 0, 208, 7, 0, 0] 23 =
    Except.ok [("Fwd_kWh", 1), ("Rev_kWh", 2)] := by
  have h0 : (int32sOf (pad36 [232, 3, 0, 0, 208, 7, 0, 0])).getD 0 0 = 1000 := by decide
  have h1 : (int32sOf (pad36 [232, 3, 0, 0, 208, 7, 0, 0])).getD 1 0 = 2000 := by decide
  rw [parse23_ok _ (by norm_num), h0, h1]
  norm_num

/-- C5: the 40-byte buffer encoding the little-endian signed integers
`100, -50, 0, 0, 5000, 6000, 7000, 120000, 121000, 122000` decodes, for
table 28, to exactly the specified mapping; in particular the negative
value decodes correctly under the signed interpretation. -/
theorem c5_table28_example : parse_input_buffer
    [100,0,0,0, 206,255,255,255, 0,0,0,0, 0,0,0,0, 136,19,0,0,
     112,23,0,0, 88,27,0,0, 192,212,1,0, 168,216,1,0, 144,220,1,0] 28 =
    Except.ok [("fwd_Now", 100), ("rev_Now", -50), ("L1_A", 5), ("L2_A", 6),
      ("L3_A", 7), ("L1_V", 120), ("L2_V", 121), ("L3_V", 122)] := by
  have hints : int32sOf (pad36 [100,0,0,0, 206,255,255,255, 0,0,0,0, 0,0,0,0, 136,19,0,0,
      112,23,0,0, 88,27,0,0, 192,212,1,0, 168,216,1,0, 144,220,1,0]) =
      [100, -50, 0, 0, 5000, 6000, 7000, 120000, 121000, 122000] := by decide
  rw [parse28_ok _ (by norm_num) (by norm_num), hints]
  norm_num

/-- C6: the keys decoding can emit for table 23 are `Fwd_kWh, Rev_kWh` and
for table 28 `fwd_Now, rev_Now, L1_A, L2_A, L3_A, L1_V, L2_V, L3_V`; each
has an entry in the `config_details` sensor catalog, and together they are
exactly the catalog's ten keys, which are exactly `sensor_types`. -/
theorem c6_catalog_closure :
    (∀ b m, parse_input_buffer b 23 = Except.ok m →
      m.map Prod.fst = ["Fwd_kWh", "Rev_kWh"])
    ∧ (∀ b m, parse_input_buffer b 28 = Except.ok m →
      m.map Prod.fst
        = ["fwd_Now", "rev_Now", "L1_A", "L2_A", "L3_A", "L1_V", "L2_V", "L3_V"])
    ∧ (∀ k, k ∈ ["Fwd_kWh", "Rev_kWh"]
          ++ ["fwd_Now", "rev_Now", "L1_A", "L2_A", "L3_A", "L1_V", "L2_V", "L3_V"] →
        (List.lookup k GetDataMqtt.config_details).isSome = true)
    ∧ List.Perm (["Fwd_kWh", "Rev_kWh"]
          ++ ["fwd_Now", "rev_Now", "L1_A", "L2_A", "L3_A", "L1_V", "L2_V", "L3_V"])
        (GetDataMqtt.config_details.map Prod.fst)
    ∧ GetDataMqtt.config_details.map Prod.fst = GetDataMqtt.sensor_types := by
  refine ⟨parse23_keys, parse28_keys, ?_, ?_, ?_⟩
  · decide
  · decide
  · decide

/-- C6, witness: the closure theorem applied to the decode of the empty
buffer for table 23. -/
theorem c6_witness :
    ([("Fwd_kWh", (0 : ℚ)), ("Rev_kWh", 0)].map Prod.fst) = ["Fwd_kWh", "Rev_kWh"] :=
  c6_catalog_closure.1 [] _ (by
    have h0 : (int32sOf (pad36 ([] : List Nat))).getD 0 0 = 0 := by decide
    have h1 : (int32sOf (pad36 ([] : List Nat))).getD 1 0 = 0 := by decide
    rw [parse23_ok [] (by norm_num), h0, h1]
    norm_num)

namespace GetDataMqtt

/-! Helper lemmas about the publish helpers and the poll cycle. -/

lemma mem_publish_initial {cfg : MqttConfig} {types : List String} {p : Publish}
    (h : p ∈ publish_initial_configurations cfg types) :
    p.qos = 0 ∧ p.retain = true
      ∧ ∃ k, k ∈ types ∧ p.topic
          = "homeassistant/sensor/" ++ cfg.meter_name ++ "_" ++ k ++ "/config" := by
  unfold publish_initial_configurations at h
  rw [List.mem_filterMap] at h
  obtain ⟨a, ha, hfa⟩ := h
  rcases hg : get_or_create_config cfg a with _ | s
  · rw [hg] at hfa
    simp at hfa
  · rw [hg] at hfa
    simp only [Option.map_some', Option.some.injEq] at hfa
    cases hfa
    exact ⟨rfl, rfl, a, ha, rfl⟩

lemma mem_publish_data {cfg : MqttConfig} {d : List (String × ℚ)} {p : Publish}
    (h : p ∈ publish_data cfg d) :
    p.qos = 0 ∧ p.retain = false
      ∧ ∃ k, p.topic = cfg.mqtt_topic_root ++ "/" ++ cfg.meter_name ++ "/" ++ k := by
  unfold publish_data at h
  rw [List.mem_map] at h
  obtain ⟨kv, hkv, rfl⟩ := h
  exact ⟨rfl, rfl, kv.1, rfl⟩

lemma mem_read_and_process {cfg : MqttConfig} {conn : Conn} {t : Int} {o : Nat}
    {p : Publish} (h : p ∈ (read_and_process_data cfg conn t o).1) :
    ∃ d, p ∈ publish_data cfg d := by
  unfold read_and_process_data at h
  cases hc : conn t o 0 with
  | none => rw [hc] at h; simp at h
  | some data =>
    rw [hc] at h
    dsimp only at h
    cases hp : parse_input_buffer data t with
    | error e => rw [hp] at h; dsimp only at h; simp at h
    | ok parsed =>
      rw [hp] at h
      dsimp only at h
      by_cases he : parsed = []
      · rw [if_pos he] at h; simp at h
      · rw [if_neg he] at h
        exact ⟨parsed, h⟩

lemma mem_run {cfg : MqttConfig} {conn : Conn} {p : Publish}
    (h : p ∈ (run cfg conn).1) : ∃ d, p ∈ publish_data cfg d := by
  unfold run at h
  rcases hr : read_and_process_data cfg conn 23 8 with ⟨p1, oe⟩
  rw [hr] at h
  cases oe with
  | some e =>
    have h' : p ∈ (read_and_process_data cfg conn 23 8).1 := by rw [hr]; exact h
    exact mem_read_and_process h'
  | none =>
    rcases List.mem_append.mp h with h1 | h2
    · have h' : p ∈ (read_and_process_data cfg conn 23 8).1 := by rw [hr]; exact h1
      exact mem_read_and_process h'
    · exact mem_read_and_process h2

/-- C7: every discovery-configuration publish uses QoS 0 and is retained,
with topic `homeassistant/sensor/<meter_name>_<key>/config`, and every
data publish `run` can ever make uses QoS 0 and is not retained, with
topic `<topic root>/<meter_name>/<key>` — so retain is true exactly on the
discovery side. -/
theorem c7_qos_retain (cfg : MqttConfig) (conn : Conn) (p : Publish) :
    (p ∈ publish_initial_configurations cfg sensor_types →
      p.qos = 0 ∧ p.retain = true
        ∧ ∃ k, k ∈ sensor_types ∧ p.topic
            = "homeassistant/sensor/" ++ cfg.meter_name ++ "_" ++ k ++ "/config")
    ∧ (p ∈ (run cfg conn).1 →
      p.qos = 0 ∧ p.retain = false
        ∧ ∃ k, p.topic = cfg.mqtt_topic_root ++ "/" ++ cfg.meter_name ++ "/" ++ k) := by
  refine ⟨fun h => mem_publish_initial h, fun h => ?_⟩
  obtain ⟨d, hd⟩ := mem_run h
  exact mem_publish_data hd

/-- C7, witness: the theorem's data-side conclusion for the `Fwd_kWh`
publish of a cycle whose table source serves only table 23. -/
theorem c7_witness :
    (⟨"t/m/Fwd_kWh", Pay.num 1, 0, false⟩ : Publish).qos = 0
    ∧ (⟨"t/m/Fwd_kWh", Pay.num 1, 0, false⟩ : Publish).retain = false
    ∧ ∃ k, (⟨"t/m/Fwd_kWh", Pay.num 1, 0, false⟩ : Publish).topic
        = (⟨"t", "m", "id"⟩ : MqttConfig).mqtt_topic_root ++ "/"
          ++ (⟨"t", "m", "id"⟩ : MqttConfig).meter_name ++ "/" ++ k := by
  have hp : parse_input_buffer [232, 3, 0, 0, 208, 7, 0, 0] 23
      = Except.ok [("Fwd_kWh", 1), ("Rev_kWh", 2)] := by
    have h0 : (int32sOf (pad36 [232, 3, 0, 0, 208, 7, 0, 0])).getD 0 0 = 1000 := by decide
    have h1 : (int32sOf (pad36 [232, 3, 0, 0, 208, 7, 0, 0])).getD 1 0 = 2000 := by decide
    rw [parse23_ok _ (by norm_num), h0, h1]
    norm_num
  have h1 : read_and_process_data ⟨"t", "m", "id"⟩
      (fun t _ _ => if t = 23 then some [232, 3, 0, 0, 208, 7, 0, 0] else none) 23 8
      = (publish_data ⟨"t", "m", "id"⟩ [("Fwd_kWh", 1), ("Rev_kWh", 2)], none) := by
    simp [read_and_process_data, hp]
  have h2 : read_and_process_data ⟨"t", "m", "id"⟩
      (fun t _ _ => if t = 23 then some [232, 3, 0, 0, 208, 7, 0, 0] else none) 28 40
      = ([], none) := by
    simp [read_and_process_data]
  have hrun : (run ⟨"t", "m", "id"⟩
      (fun t _ _ => if t = 23 then some [232, 3, 0, 0, 208, 7, 0, 0] else none)).1
      = publish_data ⟨"t", "m", "id"⟩ [("Fwd_kWh", 1), ("Rev_kWh", 2)] := by
    simp [run, h1, h2]
  refine (c7_qos_retain ⟨"t", "m", "id"⟩
    (fun t _ _ => if t = 23 then some [232, 3, 0, 0, 208, 7, 0, 0] else none)
    ⟨"t/m/Fwd_kWh", Pay.num 1, 0, false⟩).2 ?_
  rw [hrun]
  simp [publish_data]

lemma payload_map (cfg : MqttConfig) (types : List String) :
    (publish_initial_configurations cfg types).map Publish.payload
      = (types.filterMap (get_or_create_config cfg)).map Pay.str := by
  induction types with
  | nil => rfl
  | cons a l ih =>
    simp only [publish_initial_configurations, List.filterMap_cons] at ih ⊢
    cases hg : get_or_create_config cfg a with
    | none => simpa [hg] using ih
    | some s => simp [hg, ih]

/-- C8: discovery payload generation is deterministic — two invocations of
the generator over the same catalog and configuration produce byte-equal
serialized JSON payload lists, and the payload list is a function of the
sensor keys and configuration alone (each payload is the serialization
`get_or_create_config` returns for its key). -/
theorem c8_discovery_deterministic (cfg : MqttConfig) :
    (publish_initial_configurations cfg sensor_types).map Publish.payload
      = (publish_initial_configurations cfg sensor_types).map Publish.payload
    ∧ (publish_initial_configurations cfg sensor_types).map Publish.payload
      = (sensor_types.filterMap (get_or_create_config cfg)).map Pay.str :=
  ⟨rfl, payload_map cfg sensor_types⟩

/-- C10: the discovery payload dictionaries for the three amperage keys
`L1_A, L2_A, L3_A` contain no `device_class` field, while those of the
other seven sensor keys each contain one. -/
theorem c10_device_class (cfg : MqttConfig) :
    (∀ k, k ∈ ["L1_A", "L2_A", "L3_A"] →
      ∃ fs, config_data cfg k = some fs ∧ "device_class" ∉ fs.map Prod.fst)
    ∧ (∀ k, k ∈ ["Fwd_kWh", "Rev_kWh", "fwd_Now", "rev_Now", "L1_V", "L2_V", "L3_V"] →
      ∃ fs, config_data cfg k = some fs ∧ "device_class" ∈ fs.map Prod.fst) := by
  constructor
  · intro k hk
    fin_cases hk <;> exact ⟨_, rfl, by simp⟩
  · intro k hk
    fin_cases hk <;> exact ⟨_, rfl, by simp⟩

/-- C10, witness: the theorem applied to the key `L1_A`. -/
theorem c10_witness :
    ∃ fs, config_data ⟨"t", "m", "id"⟩ "L1_A" = some fs
      ∧ "device_class" ∉ fs.map Prod.fst :=
  (c10_device_class ⟨"t", "m", "id"⟩).1 "L1_A" (by decide)

end GetDataMqtt

/-- C9: in the non-MQTT `get_data` module, when the table 23 read raises
`C1218ReadTableError`, the handler only logs it, so the following
`len(data)` reads the never-assigned local `data`: `run` raises an
unbound-variable error, writes no file, and never attempts the table 28
read. -/
theorem c9_get_data_unbound (conn : GetDataMqtt.Conn) (h : conn 23 8 0 = none) :
    GetData.run conn =
      { writes := [], attempted28 := false, uncaught := some PyErr.unboundLocal } := by
  unfold GetData.run
  rw [h]

/-- C9, witness: the theorem applied to a table source whose reads all
fail. -/
theorem c9_witness :
    GetData.run (fun _ _ _ => none) =
      { writes := [], attempted28 := false, uncaught := some PyErr.unboundLocal } :=
  c9_get_data_unbound (fun _ _ _ => none) rfl

end Termineter
